import Mathlib

/-!
Verification of the USS-Assets geospatial classification core.

Shallow embedding of the classification core of `visual_tracker.py`:
the great-circle initial bearing computation, the strategic-region
classifier `is_heading_to_strategic_region`, and the 8-way compass
direction quantizer `calculate_direction_arrow`.  Python floats are
modelled as real numbers; Python's `%` and `int()` are modelled by
explicit floor/truncation arithmetic.
-/

open Real

namespace USS

/-- Python's `%` operator on real operands with a positive modulus: the
result carries the sign of the divisor, so `x % m = x - m * ⌊x / m⌋`. -/
noncomputable def pymod (x m : ℝ) : ℝ := x - m * ⌊x / m⌋

/-- Python's `int()` applied to a real value truncates toward zero:
floor for nonnegative arguments, ceiling for negative ones. -/
noncomputable def pytrunc (x : ℝ) : ℤ := if 0 ≤ x then ⌊x⌋ else ⌈x⌉

/-- Embedding of `math.radians`: degrees to radians. -/
noncomputable def radians (d : ℝ) : ℝ := d * π / 180

/-- Embedding of `math.degrees`: radians to degrees. -/
noncomputable def degrees (r : ℝ) : ℝ := r * 180 / π

/-- Embedding of `math.atan2 y x`, given as the argument of the complex number
`x + y*i`; its range is `(-π, π]` and `atan2 0 0 = 0`, matching the
C library convention used by Python. -/
noncomputable def atan2 (y x : ℝ) : ℝ := Complex.arg ⟨x, y⟩

/-- A bounding box, as in the `bounds` dictionaries of
`self.strategic_regions` (lines 29-45 of `visual_tracker.py`). -/
structure Bounds where
  north : ℝ
  south : ℝ
  east : ℝ
  west : ℝ

/-- One strategic region entry: display name, bounding box, marker color. -/
structure Region where
  name : String
  bounds : Bounds
  color : String

/-- The configured region table `self.strategic_regions`, in Python dict
insertion order: Middle East, Indian Ocean, East Asia/Western Pacific. -/
noncomputable def strategic_regions : List Region :=
  [ { name := "Middle East",
      bounds := { north := 40, south := 12, east := 65, west := 25 },
      color := "red" },
    { name := "Indian Ocean",
      bounds := { north := 25, south := -40, east := 100, west := 40 },
      color := "blue" },
    { name := "East Asia/Western Pacific",
      bounds := { north := 50, south := 0, east := 150, west := 100 },
      color := "green" } ]

/-- The initial great-circle bearing computation inlined in
`is_heading_to_strategic_region` (lines 110-119 of `visual_tracker.py`):
the spherical `atan2` formula on the radian coordinates, converted to
degrees and normalized by `(bearing + 360) % 360`. -/
noncomputable def initialBearing (lat lon clat clon : ℝ) : ℝ :=
  let lat1 := radians lat
  let lon1 := radians lon
  let lat2 := radians clat
  let lon2 := radians clon
  let dlon := lon2 - lon1
  let bearing := atan2 (Real.sin dlon * Real.cos lat2)
    (Real.cos lat1 * Real.sin lat2 - Real.sin lat1 * Real.cos lat2 * Real.cos dlon)
  pymod (degrees bearing + 360) 360

open Classical in
/-- Embedding of `is_heading_to_strategic_region` (lines 100-126 of
`visual_tracker.py`), with the iteration over `self.strategic_regions`
made explicit as recursion over the ordered region list: for each region
compute the bounding-box midpoint, the bearing to it, and return the
region's name as soon as `min diff (360 - diff) <= 45`; return
`"Other Operations"` when the list is exhausted. -/
noncomputable def is_heading_to_strategic_region
    (regions : List Region) (lat lon course : ℝ) : String :=
  match regions with
  | [] => "Other Operations"
  | r :: rest =>
      let center_lat := (r.bounds.north + r.bounds.south) / 2
      let center_lon := (r.bounds.east + r.bounds.west) / 2
      let bearing := initialBearing lat lon center_lat center_lon
      let diff := |course - bearing|
      if min diff (360 - diff) ≤ 45 then r.name
      else is_heading_to_strategic_region rest lat lon course

open Classical in
/-- The classifier as the specification words it (section 4.2): scan the
ordered region list and return the name of the **first** region whose
center bearing is within the tolerance of the course (circular
difference `min diff (360 - diff)`), else the sentinel. -/
noncomputable def classifySpec
    (regions : List Region) (lat lon course tol : ℝ) : String :=
  match regions.find? (fun r =>
      let bearing := initialBearing lat lon
        ((r.bounds.north + r.bounds.south) / 2) ((r.bounds.east + r.bounds.west) / 2)
      decide (min |course - bearing| (360 - |course - bearing|) ≤ tol)) with
  | some r => r.name
  | none => "Other Operations"

/-- The `directions` list of `calculate_direction_arrow` (line 96 of
`visual_tracker.py`), with the exact (mojibake) string literals that the
source file contains, in rotational order N, NE, E, SE, S, SW, W, NW. -/
def directions : List String :=
  ["‚Üë", "‚Üó", "‚Üí", "‚Üò", "‚Üì", "‚Üô", "‚Üê", "‚Üñ"]

/-- The index computation `int((course + 22.5) / 45) % 8` of
`calculate_direction_arrow`: Python `int()` truncates toward zero and
Python `%` on integers with positive modulus is Euclidean. -/
noncomputable def arrowIndex (course : ℝ) : ℤ :=
  pytrunc ((course + 22.5) / 45) % 8

/-- Embedding of `calculate_direction_arrow` (lines 94-98 of `visual_tracker.py`). -/
noncomputable def calculate_direction_arrow (course : ℝ) : String :=
  directions.getD (arrowIndex course).toNat ""

/-- The quantizer as the specification words it: the symbol at integer
index `⌊(course + 22.5) / 45⌋ % 8` of the fixed ordered symbol list. -/
noncomputable def arrowSpec (course : ℝ) : String :=
  directions.getD ((⌊(course + 22.5) / 45⌋ % 8)).toNat ""

/-- The part of the `VisualCarrierTracker` object state that the
classifier method reads. -/
structure VisualCarrierTracker where
  strategic_regions : List Region

/-- One call of the method `is_heading_to_strategic_region` on a tracker
object: the body only reads `self.strategic_regions` and assigns neither
attributes nor globals, so the call returns the classification together
with the unchanged object state. -/
noncomputable def classifyCall (t : VisualCarrierTracker) (lat lon course : ℝ) :
    String × VisualCarrierTracker :=
  (is_heading_to_strategic_region t.strategic_regions lat lon course, t)

/-! Section: Helper lemmas: Python modulo and truncation -/

lemma pymod_eq_mul_fract (x m : ℝ) (hm : m ≠ 0) :
    pymod x m = m * Int.fract (x / m) := by
  unfold pymod Int.fract
  field_simp

lemma pymod_nonneg (x m : ℝ) (hm : 0 < m) : 0 ≤ pymod x m := by
  rw [pymod_eq_mul_fract x m hm.ne']
  exact mul_nonneg hm.le (Int.fract_nonneg _)

lemma pymod_lt (x m : ℝ) (hm : 0 < m) : pymod x m < m := by
  rw [pymod_eq_mul_fract x m hm.ne']
  calc m * Int.fract (x / m) < m * 1 := mul_lt_mul_of_pos_left (Int.fract_lt_one _) hm
    _ = m := mul_one m

lemma pymod_shift (v : ℝ) (h0 : 0 ≤ v) (h1 : v < 360) : pymod (v + 360) 360 = v := by
  unfold pymod
  have hf : ⌊(v + 360) / 360⌋ = 1 := by
    rw [Int.floor_eq_iff]
    constructor
    · rw [le_div_iff₀ (by norm_num : (0:ℝ) < 360)]
      push_cast
      linarith
    · rw [div_lt_iff₀ (by norm_num : (0:ℝ) < 360)]
      push_cast
      linarith
  rw [hf]
  push_cast
  ring

lemma pymod_360_360 : pymod (360 : ℝ) 360 = 0 := by
  have h := pymod_shift 0 le_rfl (by norm_num)
  rw [zero_add] at h
  rw [h]

lemma pytrunc_of_nonneg (x : ℝ) (h : 0 ≤ x) : pytrunc x = ⌊x⌋ := if_pos h

/-! Section: Helper lemmas: the direction quantizer -/

lemma arrowIndex_nonneg (c : ℝ) : 0 ≤ arrowIndex c :=
  Int.emod_nonneg _ (by norm_num)

lemma arrowIndex_lt (c : ℝ) : arrowIndex c < 8 :=
  Int.emod_lt_of_pos _ (by norm_num)

lemma arrowIndex_pymod (c : ℝ) (hc : 0 ≤ c) :
    arrowIndex (pymod c 360) = arrowIndex c := by
  have hm0 : 0 ≤ pymod c 360 := pymod_nonneg c 360 (by norm_num)
  unfold arrowIndex
  rw [pytrunc_of_nonneg _ (div_nonneg (by linarith) (by norm_num)),
    pytrunc_of_nonneg _ (div_nonneg (by linarith) (by norm_num))]
  have key : (c + 22.5) / 45 =
      (pymod c 360 + 22.5) / 45 + ((8 * ⌊c / 360⌋ : ℤ) : ℝ) := by
    unfold pymod
    push_cast
    ring
  rw [key, Int.floor_add_int, Int.add_mul_emod_self_left]

lemma arrow_wrap_nonneg (c : ℝ) (hc : 0 ≤ c) :
    calculate_direction_arrow c = calculate_direction_arrow (pymod c 360) := by
  unfold calculate_direction_arrow
  rw [arrowIndex_pymod c hc]

lemma arrowIndex_neg45 : arrowIndex (-45) = 0 := by
  have h1 : ((-45 : ℝ) + 22.5) / 45 = -0.5 := by norm_num
  have h2 : ⌈(-0.5 : ℝ)⌉ = 0 := Int.ceil_eq_iff.mpr (by norm_num)
  unfold arrowIndex pytrunc
  rw [h1, if_neg (by norm_num : ¬ (0:ℝ) ≤ -0.5), h2]
  decide

lemma arrowIndex_315 : arrowIndex 315 = 7 := by
  have h1 : ((315 : ℝ) + 22.5) / 45 = 7.5 := by norm_num
  have h2 : ⌊(7.5 : ℝ)⌋ = 7 := Int.floor_eq_iff.mpr (by norm_num)
  unfold arrowIndex pytrunc
  rw [h1, if_pos (by norm_num : (0:ℝ) ≤ 7.5), h2]
  decide

lemma arrowIndex_0 : arrowIndex 0 = 0 := by
  have h1 : ((0 : ℝ) + 22.5) / 45 = 0.5 := by norm_num
  have h2 : ⌊(0.5 : ℝ)⌋ = 0 := Int.floor_eq_iff.mpr (by norm_num)
  unfold arrowIndex pytrunc
  rw [h1, if_pos (by norm_num : (0:ℝ) ≤ 0.5), h2]
  decide

lemma arrowIndex_45 : arrowIndex 45 = 1 := by
  have h1 : ((45 : ℝ) + 22.5) / 45 = 1.5 := by norm_num
  have h2 : ⌊(1.5 : ℝ)⌋ = 1 := Int.floor_eq_iff.mpr (by norm_num)
  unfold arrowIndex pytrunc
  rw [h1, if_pos (by norm_num : (0:ℝ) ≤ 1.5), h2]
  decide

lemma arrow_eq_spec_nonneg (c : ℝ) (hc : 0 ≤ c) :
    calculate_direction_arrow c = arrowSpec c := by
  unfold calculate_direction_arrow arrowSpec arrowIndex
  rw [pytrunc_of_nonneg _ (div_nonneg (by linarith) (by norm_num))]

/-! Section: Helper lemmas: rational interval bounds for sin and cos

Degree-4 Taylor enclosures from `Real.sin_bound` and `Real.cos_bound`,
for arguments known to lie in a rational interval inside `[0, 1]`. -/

lemma sin_itv (x lo hi : ℝ) (h0 : 0 ≤ lo) (h1 : hi ≤ 1) (hl : lo ≤ x) (hh : x ≤ hi) :
    lo - hi ^ 3 / 6 - hi ^ 4 * (5 / 96) ≤ Real.sin x ∧
      Real.sin x ≤ hi - lo ^ 3 / 6 + hi ^ 4 * (5 / 96) := by
  have hx0 : 0 ≤ x := h0.trans hl
  have hxa : |x| ≤ 1 := by rw [abs_le]; constructor <;> linarith
  have hb := Real.sin_bound hxa
  rw [abs_of_nonneg hx0, abs_le] at hb
  have h3 : x ^ 3 ≤ hi ^ 3 := pow_le_pow_left₀ hx0 hh 3
  have h3l : lo ^ 3 ≤ x ^ 3 := pow_le_pow_left₀ h0 hl 3
  have h4 : x ^ 4 ≤ hi ^ 4 := pow_le_pow_left₀ hx0 hh 4
  constructor <;> nlinarith [hb.1, hb.2]

lemma cos_itv (x lo hi : ℝ) (h0 : 0 ≤ lo) (h1 : hi ≤ 1) (hl : lo ≤ x) (hh : x ≤ hi) :
    1 - hi ^ 2 / 2 - hi ^ 4 * (5 / 96) ≤ Real.cos x ∧
      Real.cos x ≤ 1 - lo ^ 2 / 2 + hi ^ 4 * (5 / 96) := by
  have hx0 : 0 ≤ x := h0.trans hl
  have hxa : |x| ≤ 1 := by rw [abs_le]; constructor <;> linarith
  have hb := Real.cos_bound hxa
  rw [abs_of_nonneg hx0, abs_le] at hb
  have h2 : x ^ 2 ≤ hi ^ 2 := pow_le_pow_left₀ hx0 hh 2
  have h2l : lo ^ 2 ≤ x ^ 2 := pow_le_pow_left₀ h0 hl 2
  have h4 : x ^ 4 ≤ hi ^ 4 := pow_le_pow_left₀ hx0 hh 4
  constructor <;> nlinarith [hb.1, hb.2]

/-! Section: Helper lemmas: quadrant location of `atan2` -/

lemma atan2_zero : atan2 0 0 = 0 := by
  unfold atan2
  have h : (⟨0, 0⟩ : ℂ) = 0 := by
    apply Complex.ext <;> simp
  rw [h, Complex.arg_zero]

lemma degrees_zero : degrees 0 = 0 := by
  unfold degrees
  simp

lemma atan2_pos_of_im_pos (y x : ℝ) (hy : 0 < y) : 0 < atan2 y x := by
  unfold atan2
  have h1 : 0 ≤ Complex.arg ⟨x, y⟩ := Complex.arg_nonneg_iff.mpr hy.le
  rcases h1.lt_or_eq with h | h
  · exact h
  · exfalso
    rcases Complex.arg_eq_zero_iff.mp h.symm with ⟨-, him⟩
    exact hy.ne' him

lemma atan2_lt_pi_of_im_pos (y x : ℝ) (hy : 0 < y) : atan2 y x < π := by
  unfold atan2
  rcases (Complex.arg_le_pi ⟨x, y⟩).lt_or_eq with h | h
  · exact h
  · exfalso
    rcases Complex.arg_eq_pi_iff.mp h with ⟨-, him⟩
    exact hy.ne' him

lemma atan2_lt_half_pi_of_re_pos (y x : ℝ) (hx : 0 < x) : atan2 y x < π / 2 := by
  unfold atan2
  exact Complex.arg_lt_pi_div_two_iff.mpr (Or.inl hx)

lemma tan_atan2 (y x : ℝ) : Real.tan (atan2 y x) = y / x := by
  unfold atan2
  exact Complex.tan_arg _

lemma atan2_lt_quarter_pi (y x : ℝ) (hy : 0 < y) (hx : 0 < x) (hyx : y < x) :
    atan2 y x < π / 4 := by
  by_contra hcon
  have hge : π / 4 ≤ atan2 y x := not_lt.mp hcon
  have h0 : 0 < atan2 y x := atan2_pos_of_im_pos y x hy
  have h2 : atan2 y x < π / 2 := atan2_lt_half_pi_of_re_pos y x hx
  have hmem1 : π / 4 ∈ Set.Ioo (-(π / 2)) (π / 2) := by
    constructor <;> linarith [pi_pos]
  have hmem2 : atan2 y x ∈ Set.Ioo (-(π / 2)) (π / 2) := by
    constructor <;> linarith [pi_pos]
  have hmono := Real.strictMonoOn_tan.monotoneOn hmem1 hmem2 hge
  rw [Real.tan_pi_div_four, tan_atan2] at hmono
  rw [le_div_iff₀ hx] at hmono
  linarith

lemma atan2_gt_half_pi (y x : ℝ) (hy : 0 < y) (hx : x < 0) : π / 2 < atan2 y x := by
  by_contra hcon
  have h := not_lt.mp hcon
  unfold atan2 at h
  rcases Complex.arg_le_pi_div_two_iff.mp h with h1 | h1
  · exact hx.not_le h1
  · exact (lt_asymm hy) h1

lemma atan2_lt_three_quarter_pi (y x : ℝ) (hy : 0 < y) (hx : x < 0) (hs : 0 < y + x) :
    atan2 y x < 3 * π / 4 := by
  have hhalf := atan2_gt_half_pi y x hy hx
  have hpi := atan2_lt_pi_of_im_pos y x hy
  by_contra hcon
  have hge : 3 * π / 4 ≤ atan2 y x := not_lt.mp hcon
  have hmem1 : -(π / 4) ∈ Set.Ioo (-(π / 2)) (π / 2) := by
    constructor <;> linarith [pi_pos]
  have hmem2 : atan2 y x - π ∈ Set.Ioo (-(π / 2)) (π / 2) := by
    constructor <;> linarith [pi_pos]
  have hmono := Real.strictMonoOn_tan.monotoneOn hmem1 hmem2 (by linarith)
  have e1 : Real.tan (-(π / 4)) = -1 := by
    rw [Real.tan_neg, Real.tan_pi_div_four]
  have e2 : Real.tan (atan2 y x - π) = Real.tan (atan2 y x) := by
    have h := Real.tan_periodic (atan2 y x - π)
    simpa using h.symm
  rw [e1, e2, tan_atan2] at hmono
  rw [le_div_iff_of_neg hx] at hmono
  linarith

/-! Section: Helper lemmas: from `atan2` bounds to bearing bounds -/

lemma degrees_nonneg_of_nonneg (t : ℝ) (h : 0 ≤ t) : 0 ≤ degrees t := by
  unfold degrees
  positivity

lemma degrees_lt_360_of_lt_pi (t : ℝ) (h : t < π) : degrees t < 360 := by
  unfold degrees
  rw [div_lt_iff₀ pi_pos]
  nlinarith [pi_pos]

lemma pymod_degrees (t : ℝ) (h0 : 0 ≤ t) (h1 : t < π) :
    pymod (degrees t + 360) 360 = degrees t :=
  pymod_shift _ (degrees_nonneg_of_nonneg t h0) (degrees_lt_360_of_lt_pi t h1)

lemma degrees_lt_of_lt (t c : ℝ) (h : t < c * π / 180) : degrees t < c := by
  unfold degrees
  rw [div_lt_iff₀ pi_pos]
  linarith

lemma lt_degrees_of_lt (t c : ℝ) (h : c * π / 180 < t) : c < degrees t := by
  unfold degrees
  rw [lt_div_iff₀ pi_pos]
  linarith

/-! Section: Numeric interval facts for the three configured region bearings

The vessel of the specification examples sits at latitude 20.5,
longitude 40.2; the three region centers are (26, 45), (-7.5, 70) and
(25, 125).  All angles are enclosed in rational intervals derived from
`3.141592 < π < 3.141593`. -/

lemma rad20_5_itv : 0.3577924 ≤ radians 20.5 ∧ radians 20.5 ≤ 0.3577926 := by
  have h1 := Real.pi_gt_d6
  have h2 := Real.pi_lt_d6
  unfold radians
  constructor <;> linarith

lemma rad26_itv : 0.4537855 ≤ radians 26 ∧ radians 26 ≤ 0.4537857 := by
  have h1 := Real.pi_gt_d6
  have h2 := Real.pi_lt_d6
  unfold radians
  constructor <;> linarith

lemma rad7_5_itv : 0.1308996 ≤ radians 7.5 ∧ radians 7.5 ≤ 0.1308998 := by
  have h1 := Real.pi_gt_d6
  have h2 := Real.pi_lt_d6
  unfold radians
  constructor <;> linarith

lemma rad25_itv : 0.4363322 ≤ radians 25 ∧ radians 25 ≤ 0.4363324 := by
  have h1 := Real.pi_gt_d6
  have h2 := Real.pi_lt_d6
  unfold radians
  constructor <;> linarith

lemma rad42_4_itv : 0.7400194 ≤ radians 42.4 ∧ radians 42.4 ≤ 0.7400197 := by
  have h1 := Real.pi_gt_d6
  have h2 := Real.pi_lt_d6
  unfold radians
  constructor <;> linarith

lemma dmid_itv : 0.0837757 ≤ radians 45 - radians 40.2 ∧
    radians 45 - radians 40.2 ≤ 0.0837759 := by
  have h1 := Real.pi_gt_d6
  have h2 := Real.pi_lt_d6
  unfold radians
  constructor <;> linarith

lemma dind_itv : 0.5201080 ≤ radians 70 - radians 40.2 ∧
    radians 70 - radians 40.2 ≤ 0.5201082 := by
  have h1 := Real.pi_gt_d6
  have h2 := Real.pi_lt_d6
  unfold radians
  constructor <;> linarith

lemma deast_itv : 1.4800388 ≤ radians 125 - radians 40.2 ∧
    radians 125 - radians 40.2 ≤ 1.4800394 := by
  have h1 := Real.pi_gt_d6
  have h2 := Real.pi_lt_d6
  unfold radians
  constructor <;> linarith

lemma rad_neg7_5 : radians (-7.5) = -radians 7.5 := by
  unfold radians
  ring

lemma sin20_5_itv : 0.3493050 ≤ Real.sin (radians 20.5) ∧
    Real.sin (radians 20.5) ≤ 0.3510124 := by
  have h := rad20_5_itv
  have hs := sin_itv _ _ _ (by norm_num) (by norm_num) h.1 h.2
  exact ⟨le_trans (by norm_num) hs.1, le_trans hs.2 (by norm_num)⟩

lemma cos20_5_itv : 0.9351386 ≤ Real.cos (radians 20.5) ∧
    Real.cos (radians 20.5) ≤ 0.9368459 := by
  have h := rad20_5_itv
  have hs := cos_itv _ _ _ (by norm_num) (by norm_num) h.1 h.2
  exact ⟨le_trans (by norm_num) hs.1, le_trans hs.2 (by norm_num)⟩

lemma sin26_itv : 0.4360029 ≤ Real.sin (radians 26) ∧
    Real.sin (radians 26) ≤ 0.4404203 := by
  have h := rad26_itv
  have hs := sin_itv _ _ _ (by norm_num) (by norm_num) h.1 h.2
  exact ⟨le_trans (by norm_num) hs.1, le_trans hs.2 (by norm_num)⟩

lemma cos26_itv : 0.8948307 ≤ Real.cos (radians 26) ∧
    Real.cos (radians 26) ≤ 0.8992479 := by
  have h := rad26_itv
  have hs := cos_itv _ _ _ (by norm_num) (by norm_num) h.1 h.2
  exact ⟨le_trans (by norm_num) hs.1, le_trans hs.2 (by norm_num)⟩

lemma sin7_5_itv : 0.1305104 ≤ Real.sin (radians 7.5) ∧
    Real.sin (radians 7.5) ≤ 0.1305413 := by
  have h := rad7_5_itv
  have hs := sin_itv _ _ _ (by norm_num) (by norm_num) h.1 h.2
  exact ⟨le_trans (by norm_num) hs.1, le_trans hs.2 (by norm_num)⟩

lemma cos7_5_itv : 0.9914173 ≤ Real.cos (radians 7.5) ∧
    Real.cos (radians 7.5) ≤ 0.9914480 := by
  have h := rad7_5_itv
  have hs := cos_itv _ _ _ (by norm_num) (by norm_num) h.1 h.2
  exact ⟨le_trans (by norm_num) hs.1, le_trans hs.2 (by norm_num)⟩

lemma sin25_itv : 0.4205990 ≤ Real.sin (radians 25) ∧
    Real.sin (radians 25) ≤ 0.4243751 := by
  have h := rad25_itv
  have hs := sin_itv _ _ _ (by norm_num) (by norm_num) h.1 h.2
  exact ⟨le_trans (by norm_num) hs.1, le_trans hs.2 (by norm_num)⟩

lemma cos25_itv : 0.9029191 ≤ Real.cos (radians 25) ∧
    Real.cos (radians 25) ≤ 0.9066950 := by
  have h := rad25_itv
  have hs := cos_itv _ _ _ (by norm_num) (by norm_num) h.1 h.2
  exact ⟨le_trans (by norm_num) hs.1, le_trans hs.2 (by norm_num)⟩

lemma sin_dmid_itv : 0.0836751 ≤ Real.sin (radians 45 - radians 40.2) ∧
    Real.sin (radians 45 - radians 40.2) ≤ 0.0836805 := by
  have h := dmid_itv
  have hs := sin_itv _ _ _ (by norm_num) (by norm_num) h.1 h.2
  exact ⟨le_trans (by norm_num) hs.1, le_trans hs.2 (by norm_num)⟩

lemma cos_dmid_itv : 0.9964882 ≤ Real.cos (radians 45 - radians 40.2) ∧
    Real.cos (radians 45 - radians 40.2) ≤ 0.9964934 := by
  have h := dmid_itv
  have hs := cos_itv _ _ _ (by norm_num) (by norm_num) h.1 h.2
  exact ⟨le_trans (by norm_num) hs.1, le_trans hs.2 (by norm_num)⟩

lemma sin_dind_itv : 0.4928473 ≤ Real.sin (radians 70 - radians 40.2) ∧
    Real.sin (radians 70 - radians 40.2) ≤ 0.5004703 := by
  have h := dind_itv
  have hs := sin_itv _ _ _ (by norm_num) (by norm_num) h.1 h.2
  exact ⟨le_trans (by norm_num) hs.1, le_trans hs.2 (by norm_num)⟩

lemma cos_dind_itv : 0.8609324 ≤ Real.cos (radians 70 - radians 40.2) ∧
    Real.cos (radians 70 - radians 40.2) ≤ 0.8685552 := by
  have h := dind_itv
  have hs := cos_itv _ _ _ (by norm_num) (by norm_num) h.1 h.2
  exact ⟨le_trans (by norm_num) hs.1, le_trans hs.2 (by norm_num)⟩

lemma cos42_4_itv : 0.7105657 ≤ Real.cos (radians 42.4) ∧
    Real.cos (radians 42.4) ≤ 0.7418054 := by
  have h := rad42_4_itv
  have hs := cos_itv _ _ _ (by norm_num) (by norm_num) h.1 h.2
  exact ⟨le_trans (by norm_num) hs.1, le_trans hs.2 (by norm_num)⟩

lemma cos_deast_itv : 0.0098072 ≤ Real.cos (radians 125 - radians 40.2) ∧
    Real.cos (radians 125 - radians 40.2) ≤ 0.1005506 := by
  have e : radians 125 - radians 40.2 = 2 * radians 42.4 := by
    unfold radians
    ring
  rw [e, Real.cos_two_mul]
  have h := cos42_4_itv
  constructor <;> nlinarith [h.1, h.2]

/-! Section: The three region bearings from the example vessel position -/

lemma mul_itv (a b la ha lb hb : ℝ) (hla : la ≤ a) (hha : a ≤ ha) (hlb : lb ≤ b)
    (hhb : b ≤ hb) (h0a : 0 ≤ la) (h0b : 0 ≤ lb) :
    la * lb ≤ a * b ∧ a * b ≤ ha * hb :=
  ⟨mul_le_mul hla hlb h0b (h0a.trans hla),
    mul_le_mul hha hhb (h0b.trans hlb) ((h0a.trans hla).trans hha)⟩

/-- The numerator of the `atan2` in the bearing formula. -/
noncomputable def bearingY (lat lon clat clon : ℝ) : ℝ :=
  Real.sin (radians clon - radians lon) * Real.cos (radians clat)

/-- The denominator of the `atan2` in the bearing formula. -/
noncomputable def bearingX (lat lon clat clon : ℝ) : ℝ :=
  Real.cos (radians lat) * Real.sin (radians clat) -
    Real.sin (radians lat) * Real.cos (radians clat) * Real.cos (radians clon - radians lon)

lemma initialBearing_eq (lat lon clat clon : ℝ) :
    initialBearing lat lon clat clon =
      pymod (degrees (atan2 (bearingY lat lon clat clon)
        (bearingX lat lon clat clon)) + 360) 360 := rfl

lemma bearing_lt_of_arg_lt (lat lon clat clon c : ℝ)
    (hy : 0 < bearingY lat lon clat clon)
    (harg : atan2 (bearingY lat lon clat clon) (bearingX lat lon clat clon) <
      c * π / 180) :
    initialBearing lat lon clat clon < c := by
  rw [initialBearing_eq,
    pymod_degrees _ (atan2_pos_of_im_pos _ _ hy).le (atan2_lt_pi_of_im_pos _ _ hy)]
  exact degrees_lt_of_lt _ _ harg

lemma bearing_gt_of_arg_gt (lat lon clat clon c : ℝ)
    (hy : 0 < bearingY lat lon clat clon)
    (harg : c * π / 180 <
      atan2 (bearingY lat lon clat clon) (bearingX lat lon clat clon)) :
    c < initialBearing lat lon clat clon := by
  rw [initialBearing_eq,
    pymod_degrees _ (atan2_pos_of_im_pos _ _ hy).le (atan2_lt_pi_of_im_pos _ _ hy)]
  exact lt_degrees_of_lt _ _ harg

lemma yMid_pos : 0 < bearingY 20.5 40.2 26 45 := by
  unfold bearingY
  exact mul_pos (lt_of_lt_of_le (by norm_num) sin_dmid_itv.1)
    (lt_of_lt_of_le (by norm_num) cos26_itv.1)

lemma xMid_pos : 0 < bearingX 20.5 40.2 26 45 := by
  unfold bearingX
  have h1 := mul_itv _ _ _ _ _ _ cos20_5_itv.1 cos20_5_itv.2 sin26_itv.1 sin26_itv.2
    (by norm_num) (by norm_num)
  have h2 := mul_itv _ _ _ _ _ _ sin20_5_itv.1 sin20_5_itv.2 cos26_itv.1 cos26_itv.2
    (by norm_num) (by norm_num)
  have h3 := mul_itv _ _ _ _ _ _ h2.1 h2.2 cos_dmid_itv.1 cos_dmid_itv.2
    (by norm_num) (by norm_num)
  nlinarith [h1.1, h3.2]

lemma yMid_lt_xMid : bearingY 20.5 40.2 26 45 < bearingX 20.5 40.2 26 45 := by
  unfold bearingY bearingX
  have hy := mul_itv _ _ _ _ _ _ sin_dmid_itv.1 sin_dmid_itv.2 cos26_itv.1 cos26_itv.2
    (by norm_num) (by norm_num)
  have h1 := mul_itv _ _ _ _ _ _ cos20_5_itv.1 cos20_5_itv.2 sin26_itv.1 sin26_itv.2
    (by norm_num) (by norm_num)
  have h2 := mul_itv _ _ _ _ _ _ sin20_5_itv.1 sin20_5_itv.2 cos26_itv.1 cos26_itv.2
    (by norm_num) (by norm_num)
  have h3 := mul_itv _ _ _ _ _ _ h2.1 h2.2 cos_dmid_itv.1 cos_dmid_itv.2
    (by norm_num) (by norm_num)
  nlinarith [hy.2, h1.1, h3.2]

/-- The bearing from (20.5, 40.2) to the Middle East center (26, 45) lies
strictly between 0 and 45 degrees (true value about 37.8). -/
lemma bearingMid_bounds : 0 < initialBearing 20.5 40.2 26 45 ∧
    initialBearing 20.5 40.2 26 45 < 45 := by
  have hy := yMid_pos
  have hx := xMid_pos
  have hyx := yMid_lt_xMid
  constructor
  · apply bearing_gt_of_arg_gt _ _ _ _ _ hy
    have h0 : (0:ℝ) * π / 180 = 0 := by ring
    rw [h0]
    exact atan2_pos_of_im_pos _ _ hy
  · apply bearing_lt_of_arg_lt _ _ _ _ _ hy
    have h45 : (45:ℝ) * π / 180 = π / 4 := by ring
    rw [h45]
    exact atan2_lt_quarter_pi _ _ hy hx hyx

lemma yInd_pos : 0 < bearingY 20.5 40.2 (-7.5) 70 := by
  unfold bearingY
  rw [rad_neg7_5, Real.cos_neg]
  exact mul_pos (lt_of_lt_of_le (by norm_num) sin_dind_itv.1)
    (lt_of_lt_of_le (by norm_num) cos7_5_itv.1)

lemma xInd_neg : bearingX 20.5 40.2 (-7.5) 70 < 0 := by
  unfold bearingX
  rw [rad_neg7_5, Real.cos_neg, Real.sin_neg]
  have h1 := mul_itv _ _ _ _ _ _ cos20_5_itv.1 cos20_5_itv.2 sin7_5_itv.1 sin7_5_itv.2
    (by norm_num) (by norm_num)
  have h2 := mul_itv _ _ _ _ _ _ sin20_5_itv.1 sin20_5_itv.2 cos7_5_itv.1 cos7_5_itv.2
    (by norm_num) (by norm_num)
  have h3 := mul_itv _ _ _ _ _ _ h2.1 h2.2 cos_dind_itv.1 cos_dind_itv.2
    (by norm_num) (by norm_num)
  nlinarith [h1.1, h3.1]

lemma yInd_add_xInd_pos :
    0 < bearingY 20.5 40.2 (-7.5) 70 + bearingX 20.5 40.2 (-7.5) 70 := by
  unfold bearingY bearingX
  rw [rad_neg7_5, Real.cos_neg, Real.sin_neg]
  have hy := mul_itv _ _ _ _ _ _ sin_dind_itv.1 sin_dind_itv.2 cos7_5_itv.1 cos7_5_itv.2
    (by norm_num) (by norm_num)
  have h1 := mul_itv _ _ _ _ _ _ cos20_5_itv.1 cos20_5_itv.2 sin7_5_itv.1 sin7_5_itv.2
    (by norm_num) (by norm_num)
  have h2 := mul_itv _ _ _ _ _ _ sin20_5_itv.1 sin20_5_itv.2 cos7_5_itv.1 cos7_5_itv.2
    (by norm_num) (by norm_num)
  have h3 := mul_itv _ _ _ _ _ _ h2.1 h2.2 cos_dind_itv.1 cos_dind_itv.2
    (by norm_num) (by norm_num)
  nlinarith [hy.1, h1.2, h3.2]

/-- The bearing from (20.5, 40.2) to the Indian Ocean center (-7.5, 70)
lies strictly between 90 and 135 degrees (true value about 130.7). -/
lemma bearingInd_bounds : 90 < initialBearing 20.5 40.2 (-7.5) 70 ∧
    initialBearing 20.5 40.2 (-7.5) 70 < 135 := by
  have hy := yInd_pos
  have hx := xInd_neg
  have hs := yInd_add_xInd_pos
  constructor
  · apply bearing_gt_of_arg_gt _ _ _ _ _ hy
    have h90 : (90:ℝ) * π / 180 = π / 2 := by ring
    rw [h90]
    exact atan2_gt_half_pi _ _ hy hx
  · apply bearing_lt_of_arg_lt _ _ _ _ _ hy
    have h135 : (135:ℝ) * π / 180 = 3 * π / 4 := by ring
    rw [h135]
    exact atan2_lt_three_quarter_pi _ _ hy hx hs

lemma sin_deast_pos : 0 < Real.sin (radians 125 - radians 40.2) := by
  have h := deast_itv
  have hpi := Real.pi_gt_d6
  apply Real.sin_pos_of_pos_of_lt_pi
  · linarith [h.1]
  · linarith [h.2]

lemma yEast_pos : 0 < bearingY 20.5 40.2 25 125 := by
  unfold bearingY
  exact mul_pos sin_deast_pos (lt_of_lt_of_le (by norm_num) cos25_itv.1)

lemma xEast_pos : 0 < bearingX 20.5 40.2 25 125 := by
  unfold bearingX
  have h1 := mul_itv _ _ _ _ _ _ cos20_5_itv.1 cos20_5_itv.2 sin25_itv.1 sin25_itv.2
    (by norm_num) (by norm_num)
  have h2 := mul_itv _ _ _ _ _ _ sin20_5_itv.1 sin20_5_itv.2 cos25_itv.1 cos25_itv.2
    (by norm_num) (by norm_num)
  have h3 := mul_itv _ _ _ _ _ _ h2.1 h2.2 cos_deast_itv.1 cos_deast_itv.2
    (by norm_num) (by norm_num)
  nlinarith [h1.1, h3.2]

/-- The bearing from (20.5, 40.2) to the East Asia/Western Pacific center
(25, 125) lies strictly between 0 and 90 degrees (true value about 67.9). -/
lemma bearingEast_bounds : 0 < initialBearing 20.5 40.2 25 125 ∧
    initialBearing 20.5 40.2 25 125 < 90 := by
  have hy := yEast_pos
  have hx := xEast_pos
  constructor
  · apply bearing_gt_of_arg_gt _ _ _ _ _ hy
    have h0 : (0:ℝ) * π / 180 = 0 := by ring
    rw [h0]
    exact atan2_pos_of_im_pos _ _ hy
  · apply bearing_lt_of_arg_lt _ _ _ _ _ hy
    have h90 : (90:ℝ) * π / 180 = π / 2 := by ring
    rw [h90]
    exact atan2_lt_half_pi_of_re_pos _ _ hx

/-! Section: Evaluating the classifier on the configured region table -/

lemma classify_strategic_none (course : ℝ)
    (h1 : ¬ (min |course - initialBearing 20.5 40.2 26 45|
      (360 - |course - initialBearing 20.5 40.2 26 45|) ≤ 45))
    (h2 : ¬ (min |course - initialBearing 20.5 40.2 (-7.5) 70|
      (360 - |course - initialBearing 20.5 40.2 (-7.5) 70|) ≤ 45))
    (h3 : ¬ (min |course - initialBearing 20.5 40.2 25 125|
      (360 - |course - initialBearing 20.5 40.2 25 125|) ≤ 45)) :
    is_heading_to_strategic_region strategic_regions 20.5 40.2 course =
      "Other Operations" := by
  have e1 : ((40:ℝ) + 12) / 2 = 26 := by norm_num
  have e2 : ((65:ℝ) + 25) / 2 = 45 := by norm_num
  have e3 : ((25:ℝ) + -40) / 2 = -7.5 := by norm_num
  have e4 : ((100:ℝ) + 40) / 2 = 70 := by norm_num
  have e5 : ((50:ℝ) + 0) / 2 = 25 := by norm_num
  have e6 : ((150:ℝ) + 100) / 2 = 125 := by norm_num
  simp only [strategic_regions, is_heading_to_strategic_region, e1, e2, e3, e4, e5, e6]
  rw [if_neg h1, if_neg h2, if_neg h3]

lemma classify_strategic_first (course : ℝ)
    (h1 : min |course - initialBearing 20.5 40.2 26 45|
      (360 - |course - initialBearing 20.5 40.2 26 45|) ≤ 45) :
    is_heading_to_strategic_region strategic_regions 20.5 40.2 course =
      "Middle East" := by
  have e1 : ((40:ℝ) + 12) / 2 = 26 := by norm_num
  have e2 : ((65:ℝ) + 25) / 2 = 45 := by norm_num
  simp only [strategic_regions, is_heading_to_strategic_region, e1, e2]
  rw [if_pos h1]

/-- At course 180 none of the three configured regions is within the 45
degree tolerance: the vessel at (20.5, 40.2) sees the Middle East center
at bearing about 37.8, the Indian Ocean center at about 130.7 and the
East Asia center at about 67.9. -/
lemma classify_at_180 :
    is_heading_to_strategic_region strategic_regions 20.5 40.2 180 =
      "Other Operations" := by
  have hM := bearingMid_bounds
  have hI := bearingInd_bounds
  have hE := bearingEast_bounds
  apply classify_strategic_none
  · rw [abs_of_pos (by linarith : (0:ℝ) < 180 - initialBearing 20.5 40.2 26 45),
      min_eq_left (by linarith)]
    exact not_le.mpr (by linarith)
  · rw [abs_of_pos (by linarith : (0:ℝ) < 180 - initialBearing 20.5 40.2 (-7.5) 70),
      min_eq_left (by linarith)]
    exact not_le.mpr (by linarith)
  · rw [abs_of_pos (by linarith : (0:ℝ) < 180 - initialBearing 20.5 40.2 25 125),
      min_eq_left (by linarith)]
    exact not_le.mpr (by linarith)

/-- At course 0 the very first region, the Middle East, is within the 45
degree tolerance (its center bearing is below 45 degrees), so the scan
short-circuits there. -/
lemma classify_at_0 :
    is_heading_to_strategic_region strategic_regions 20.5 40.2 0 =
      "Middle East" := by
  have hM := bearingMid_bounds
  apply classify_strategic_first
  rw [zero_sub, abs_neg,
    abs_of_nonneg (by linarith : (0:ℝ) ≤ initialBearing 20.5 40.2 26 45),
    min_eq_left (by linarith)]
  linarith

/-- At the out-of-domain course 360 the circular difference to the Middle
East bearing is again below the tolerance, so the classifier silently
returns "Middle East". -/
lemma classify_at_360 :
    is_heading_to_strategic_region strategic_regions 20.5 40.2 360 =
      "Middle East" := by
  have hM := bearingMid_bounds
  apply classify_strategic_first
  rw [abs_of_pos (by linarith : (0:ℝ) < 360 - initialBearing 20.5 40.2 26 45),
    min_eq_right (by linarith)]
  linarith

/-! Section: The claims -/

/-- Claim C1: for every vessel state and region list, the classifier scans
the regions in list order, computes each center as the bounding-box
midpoint, the initial great-circle bearing to it, and returns the name of
the first region whose circular difference to the course is at most 45
degrees, short-circuiting; if none matches it returns the sentinel
"Other Operations".  Stated as: the source function agrees with the
specification-worded first-match scan `classifySpec` at tolerance 45. -/
theorem claim1_first_match_scan (regions : List Region) (lat lon course : ℝ) :
    is_heading_to_strategic_region regions lat lon course =
      classifySpec regions lat lon course 45 := by
  induction regions with
  | nil => rfl
  | cons r rest ih =>
      by_cases h : min |course - initialBearing lat lon
            ((r.bounds.north + r.bounds.south) / 2) ((r.bounds.east + r.bounds.west) / 2)|
          (360 - |course - initialBearing lat lon
            ((r.bounds.north + r.bounds.south) / 2)
            ((r.bounds.east + r.bounds.west) / 2)|) ≤ 45
      · simp only [is_heading_to_strategic_region, classifySpec, List.find?_cons]
        rw [if_pos h, decide_eq_true h]
      · simp only [is_heading_to_strategic_region, classifySpec, List.find?_cons]
        rw [if_neg h, decide_eq_false h, ih]
        rfl

/-- Claim C2 counterexample: the course 360 is outside the valid domain
`[0, 360)`, yet the classifier does not fail: it silently returns the
classification "Middle East" for the vessel at (20.5, 40.2).  The source
performs no input validation at all, so the claimed InvalidInput error
cannot occur. -/
theorem claim2_counterexample :
    ¬ ((0:ℝ) ≤ 360 ∧ (360:ℝ) < 360) ∧
      is_heading_to_strategic_region strategic_regions 20.5 40.2 360 =
        "Middle East" :=
  ⟨by norm_num, classify_at_360⟩

/-- Claim C2 (amended): the classifier performs no input validation and
never fails: for every course and position, in or out of the valid
domain, it totally returns either the name of one of the regions in the
list or the sentinel "Other Operations". -/
theorem claim2_no_validation (regions : List Region) (lat lon course : ℝ) :
    is_heading_to_strategic_region regions lat lon course = "Other Operations" ∨
      ∃ r ∈ regions, is_heading_to_strategic_region regions lat lon course = r.name := by
  induction regions with
  | nil => exact Or.inl rfl
  | cons r rest ih =>
      simp only [is_heading_to_strategic_region]
      split
      · exact Or.inr ⟨r, List.mem_cons_self r rest, rfl⟩
      · rcases ih with h1 | ⟨s, hs, h2⟩
        · exact Or.inl h1
        · exact Or.inr ⟨s, List.mem_cons_of_mem _ hs, h2⟩

/-- Claim C3 counterexample: the vessel at (20.5, 40.2) with course 180 is
NOT classified as "Middle East": the Middle East center (26, 45) lies to
the north-east (bearing about 37.8 degrees), so a course due south is
more than 45 degrees away; the scan finds no region and returns the
sentinel. -/
theorem claim3_counterexample :
    is_heading_to_strategic_region strategic_regions 20.5 40.2 180 ≠
      "Middle East" := by
  rw [classify_at_180]
  decide

/-- Claim C3 (amended): for the configured region set, a vessel at latitude
20.5, longitude 40.2 with course 180 is classified as the sentinel
"Other Operations" (no region center bearing is within tolerance). -/
theorem claim3_course180_other :
    is_heading_to_strategic_region strategic_regions 20.5 40.2 180 =
      "Other Operations" :=
  classify_at_180

/-- Claim C4 counterexample: the same vessel with course 0 is NOT
classified as "Other Operations": course due north is within 45 degrees
of the Middle East center bearing (about 37.8), so the first region
matches. -/
theorem claim4_counterexample :
    is_heading_to_strategic_region strategic_regions 20.5 40.2 0 ≠
      "Other Operations" := by
  rw [classify_at_0]
  decide

/-- Claim C4 (amended): for the configured region set, a vessel at latitude
20.5, longitude 40.2 with course 0 is classified as "Middle East". -/
theorem claim4_course0_middle_east :
    is_heading_to_strategic_region strategic_regions 20.5 40.2 0 =
      "Middle East" :=
  classify_at_0

/-- Claim C5: for every pair of valid geographic points, the initial
bearing - the spherical `atan2` formula converted to degrees and
normalized by `(b + 360) % 360` - lies in the half-open interval
`[0, 360)`. -/
theorem claim5_bearing_range (lat lon clat clon : ℝ)
    (h1 : -90 ≤ lat) (h2 : lat ≤ 90) (h3 : -180 ≤ lon) (h4 : lon ≤ 180)
    (h5 : -90 ≤ clat) (h6 : clat ≤ 90) (h7 : -180 ≤ clon) (h8 : clon ≤ 180) :
    0 ≤ initialBearing lat lon clat clon ∧ initialBearing lat lon clat clon < 360 := by
  rw [initialBearing_eq]
  exact ⟨pymod_nonneg _ _ (by norm_num), pymod_lt _ _ (by norm_num)⟩

/-- Claim C5 witness: the bearing range theorem applied at the concrete
valid points (10, 20) and (30, 40). -/
theorem claim5_witness :
    ((-90 ≤ (10:ℝ) ∧ (10:ℝ) ≤ 90) ∧ (-180 ≤ (20:ℝ) ∧ (20:ℝ) ≤ 180)) ∧
      0 ≤ initialBearing 10 20 30 40 ∧ initialBearing 10 20 30 40 < 360 :=
  ⟨by norm_num, claim5_bearing_range 10 20 30 40 (by norm_num) (by norm_num)
    (by norm_num) (by norm_num) (by norm_num) (by norm_num) (by norm_num) (by norm_num)⟩

/-- Claim C6: for every point, the initial bearing from the point to itself
is exactly 0: both `atan2` arguments vanish, `atan2 0 0 = 0`, and the
normalization maps 0 + 360 back to 0. -/
theorem claim6_self_bearing_zero (lat lon : ℝ) :
    initialBearing lat lon lat lon = 0 := by
  rw [initialBearing_eq]
  unfold bearingY bearingX
  rw [sub_self, Real.sin_zero, Real.cos_zero, zero_mul, mul_one]
  rw [show Real.cos (radians lat) * Real.sin (radians lat) -
    Real.sin (radians lat) * Real.cos (radians lat) = 0 by ring]
  rw [atan2_zero, degrees_zero]
  exact pymod_shift 0 le_rfl (by norm_num)

/-- Claim C7 counterexample: `calculate_direction_arrow` does NOT wrap
negative courses: Python's `int()` truncates toward zero, so course -45
yields index `int(-0.5) % 8 = 0` (the north arrow) while course 315
yields index 7 (the north-west arrow). -/
theorem claim7_counterexample :
    calculate_direction_arrow (-45) ≠ calculate_direction_arrow 315 := by
  unfold calculate_direction_arrow
  rw [arrowIndex_neg45, arrowIndex_315]
  decide

/-- Claim C7 (amended): for every nonnegative course the quantizer does
wrap with modulo arithmetic, `arrowFor c = arrowFor (c % 360)`, and in
particular `arrowFor 360 = arrowFor 0`; the wrap fails only for negative
courses, where `int()` truncates toward zero instead of flooring. -/
theorem claim7_wrap_nonneg :
    (∀ c : ℝ, 0 ≤ c →
      calculate_direction_arrow c = calculate_direction_arrow (pymod c 360)) ∧
    calculate_direction_arrow 360 = calculate_direction_arrow 0 := by
  constructor
  · exact arrow_wrap_nonneg
  · rw [arrow_wrap_nonneg 360 (by norm_num), pymod_360_360]

/-- Claim C7 witness: the amended wrap theorem applied at the concrete
nonnegative course 400. -/
theorem claim7_witness :
    (0:ℝ) ≤ 400 ∧
      calculate_direction_arrow 400 = calculate_direction_arrow (pymod 400 360) :=
  ⟨by norm_num, claim7_wrap_nonneg.1 400 (by norm_num)⟩

/-- Claim C8: for every course in `[0, 360)` the quantizer returns the
symbol at integer index `⌊(course + 22.5) / 45⌋ % 8` of the fixed ordered
8-symbol list (N, NE, E, SE, S, SW, W, NW order); in particular course 0
maps to the N symbol and course 45 to the NE symbol. -/
theorem claim8_quantizer_formula :
    (∀ c : ℝ, 0 ≤ c → c < 360 → calculate_direction_arrow c = arrowSpec c) ∧
    calculate_direction_arrow 0 = "‚Üë" ∧ calculate_direction_arrow 45 = "‚Üó" := by
  refine ⟨fun c hc _ => arrow_eq_spec_nonneg c hc, ?_, ?_⟩
  · unfold calculate_direction_arrow
    rw [arrowIndex_0]
    rfl
  · unfold calculate_direction_arrow
    rw [arrowIndex_45]
    rfl

/-- Claim C8 witness: the quantizer formula theorem applied at the concrete
course 90. -/
theorem claim8_witness :
    ((0:ℝ) ≤ 90 ∧ (90:ℝ) < 360) ∧ calculate_direction_arrow 90 = arrowSpec 90 :=
  ⟨by norm_num, claim8_quantizer_formula.1 90 (by norm_num) (by norm_num)⟩

/-- Claim C9: the classifier is deterministic and side-effect free: a
method call on a tracker object leaves the object state unchanged, and a
second call with identical inputs returns an identical result - there is
no hidden state read or written between calls.  The embedded method body
is a pure function of the region list and the vessel state. -/
theorem claim9_deterministic_stateless (t : VisualCarrierTracker) (lat lon course : ℝ) :
    (classifyCall t lat lon course).2 = t ∧
      (classifyCall (classifyCall t lat lon course).2 lat lon course).1 =
        (classifyCall t lat lon course).1 :=
  ⟨rfl, rfl⟩

/-- Claim C10 (implicit): `calculate_direction_arrow` is total over all
real course values: the computed index `int((course + 22.5) / 45) % 8`
always lies in `[0, 8)`, so the list lookup cannot go out of bounds and
the function always returns one of the 8 compass symbols. -/
theorem claim10_arrow_total (c : ℝ) :
    0 ≤ arrowIndex c ∧ arrowIndex c < 8 ∧
      calculate_direction_arrow c ∈ directions := by
  refine ⟨arrowIndex_nonneg c, arrowIndex_lt c, ?_⟩
  unfold calculate_direction_arrow
  have hlt : (arrowIndex c).toNat < 8 := by
    have h1 := arrowIndex_nonneg c
    have h2 := arrowIndex_lt c
    omega
  obtain ⟨n, hn⟩ : ∃ n, (arrowIndex c).toNat = n := ⟨_, rfl⟩
  rw [hn] at hlt ⊢
  interval_cases n <;> decide

end USS
